import Mathlib

/-!
Verification development for the training orchestrator script of the c2s
repository (scripts/c2s-train.py).  The script is embedded shallowly: the
body of `main` becomes a pure function from the parsed argument record and
an environment of external collaborators (data loaders, preprocessing,
filesystem probe, global random generator) to either a run error or an exit
code together with the trace of observable effects (printed message, the
single call to the ensemble trainer, the single artifact write).
-/

namespace C2S

/-- Kinds of failures a run can end in: an out-of-range list access
(Python IndexError), a missing dictionary key (Python KeyError), and the
invalid-argument failure of the external selection primitive. -/
inductive RunError where
  | indexOutOfRange
  | keyError
  | invalidArgument
deriving DecidableEq, Repr

/-- One recording entry of the aggregated dataset.  The script only ever
reads and writes the cell_num field; everything else in the Python dict is
opaque and is collapsed into an abstract payload.  cell_num is optional
because entries may arrive without it (the registry then assigns one). -/
structure Entry where
  cell_num : Option Int
  payload : Nat
deriving DecidableEq, Repr

/-- The parsed command-line arguments of scripts/c2s-train.py, one field per
argparse argument, with the same names and the argparse defaults recorded in
mkDefaultArgs below.  Float-typed arguments are modelled as rationals: the
script never computes with them, it only forwards them. -/
structure Args where
  dataset : List String
  output : String
  num_components : Int
  num_features : Int
  num_models : Int
  keep_all : Int
  finetune : Int
  num_train : Int
  num_valid : Int
  var_explained : Rat
  window_length : Rat
  regularize : Rat
  preprocess : Int
  seed : Int
  verbosity : Int
deriving DecidableEq, Repr

/-- Argument record with the argparse defaults of scripts/c2s-train.py
(dataset and output are required positionals; they are filled by the two
parameters). -/
def mkDefaultArgs (dataset : List String) (output : String) : Args :=
  { dataset := dataset
    output := output
    num_components := 3
    num_features := 2
    num_models := 4
    keep_all := 1
    finetune := 0
    num_train := 0
    num_valid := 0
    var_explained := 95
    window_length := 1000
    regularize := 0
    preprocess := 0
    seed := -1
    verbosity := 1 }

/-- The model_parameters dictionary built at the train call site. -/
structure ModelParameters where
  num_components : Int
  num_features : Int
deriving DecidableEq, Repr

/-- The training_parameters dictionary built at the train call site. -/
structure TrainingParameters where
  verbosity : Int
deriving DecidableEq, Repr

/-- The full argument tuple of the one call to the external trainer
c2s.train, field for field as written at lines 91 to 104 of the script. -/
structure TrainCall where
  entries : List Entry
  num_valid : Int
  num_models : Int
  var_explained : Rat
  window_length : Rat
  keep_all : Int
  finetune : Int
  model_parameters : ModelParameters
  training_parameters : TrainingParameters
  regularize : Rat
  verbosity : Int
deriving DecidableEq, Repr

/-- Observable effects of a run, in order: the early user-facing message,
the single trainer invocation, the single artifact write. -/
inductive Event where
  | printed (msg : String)
  | trained (call : TrainCall)
  | saved (path : String)
deriving DecidableEq, Repr

/-- External collaborators of the orchestrator, consumed through their
interfaces: the global random generator state as found at process start
(ambientRng), the deterministic seeding map of the generator (seedFn,
modelling numpy.random.seed and cmt.utils.seed), the per-path loader
load_data, the preprocessing pass, and the filesystem directory probe
os.path.isdir. -/
structure Env where
  ambientRng : Nat
  seedFn : Int → Nat
  load_data : String → List Entry
  preprocessFn : List Entry → Int → List Entry
  isDir : String → Bool

/-- The global random generator state in effect when sampling happens:
seeded deterministically when a seed above the sentinel -1 was supplied,
otherwise whatever ambient state the process started with (lines 58-61). -/
def rngOf (env : Env) (args : Args) : Nat :=
  if args.seed > -1 then env.seedFn args.seed else env.ambientRng

/-- The aggregated entry sequence: the concatenation of every loaded
dataset in locator order, then the optional whole-collection preprocessing
pass (lines 69-73). -/
def aggData (env : Env) (args : Args) : List Entry :=
  let d := (args.dataset.map env.load_data).flatten
  if args.preprocess ≠ 0 then env.preprocessFn d args.verbosity else d

/-- Index-assignment pass of the cell registry: entry k receives
cell_num k, whatever it held before (lines 77-79). -/
def assignCellNums (data : List Entry) : List Entry :=
  data.enum.map fun p => { p.2 with cell_num := some (p.1 : Int) }

/-- The cell registry (lines 76-79): test the first entry only; if it has a
cell_num leave every entry alone, otherwise number all entries by position.
On an empty collection the membership test on the first element is an
out-of-range access, exactly as data[0] is in Python. -/
def cellRegistry : List Entry → Except RunError (List Entry)
  | [] => Except.error RunError.indexOutOfRange
  | e :: rest =>
    if e.cell_num.isSome then Except.ok (e :: rest)
    else Except.ok (assignCellNums (e :: rest))

/-- The comprehension of line 82 reading cell_num off every entry; a
missing key is a KeyError, as in Python. -/
def cellNums : List Entry → Except RunError (List Int)
  | [] => Except.ok []
  | e :: rest =>
    match e.cell_num with
    | none => Except.error RunError.keyError
    | some v =>
      match cellNums rest with
      | Except.error err => Except.error err
      | Except.ok vs => Except.ok (v :: vs)

/-- numpy.unique: the sorted list of distinct values of a list, computed
as a sort followed by removal of duplicates. -/
def unique (l : List Int) : List Int :=
  (l.insertionSort (· ≤ ·)).dedup

/-- Modelled from the spec: the selection primitive random_select(k, n) of
the external cmt.utils module is not part of this repository.  Following
the interface of spec sections 4.2 and 6 it draws k distinct indices from
the half-open range 0..n as a deterministic function of the process-wide
generator state, and fails with an InvalidArgument kind when k exceeds n,
with no partial selection and no clamping.  The concrete draw used here (a
rotation of the index range) is one such deterministic function. -/
def random_select (g : Nat) (k n : Nat) : Except RunError (List Nat) :=
  if n < k then Except.error RunError.invalidArgument
  else Except.ok (((List.range n).rotate g).take k)

/-- The branch of lines 85-89 choosing the training cells: a random
selection of num_train indices when num_train is positive, otherwise the
full index range of the cell identifier set. -/
def pickTraining (rng : Nat) (num_train : Int) (n : Nat) :
    Except RunError (List Nat) :=
  if num_train > 0 then random_select rng num_train.toNat n
  else Except.ok (List.range n)

/-- The membership test of line 91: entry cell_num in training_cells,
comparing the cell_num value against the raw selected indices. -/
def inTrainingCells (tc : List Nat) (e : Entry) : Bool :=
  match e.cell_num with
  | some v => tc.any fun i => (i : Int) == v
  | none => false

/-- The train(...) call of lines 91-104, field for field; note the
training_parameters verbosity is the literal 1 of line 102. -/
def mkTrainCall (args : Args) (entries : List Entry) : TrainCall :=
  { entries := entries
    num_valid := args.num_valid
    num_models := args.num_models
    var_explained := args.var_explained
    window_length := args.window_length
    keep_all := args.keep_all
    finetune := args.finetune
    model_parameters :=
      { num_components := args.num_components
        num_features := args.num_features }
    training_parameters := { verbosity := 1 }
    regularize := args.regularize
    verbosity := args.verbosity }

/-- os.path.join for the one join the script performs. -/
def osPathJoin (dir file : String) : String :=
  if dir = "" then file
  else if dir.endsWith "/" then dir ++ file
  else dir ++ "/" ++ file

/-- The output-path resolution of lines 110-113: a directory target gets
the fixed default filename model.xpck joined onto it, any other target is
taken as the exact file path. -/
def outPath (isDir : String → Bool) (output : String) : String :=
  if isDir output then osPathJoin output "model.xpck" else output

/-- The body of main of scripts/c2s-train.py as a pure function: seed the
generator if asked, return early with a message on an empty dataset list,
aggregate and optionally preprocess, run the cell registry, collect the
cell identifiers, pick the training cells, and finish with the trainer call
and the artifact write as the trace of the successful run. -/
def main (env : Env) (args : Args) : Except RunError (Int × List Event) :=
  let rng := rngOf env args
  if args.dataset = [] then
    Except.ok (0, [Event.printed "You have to specify at least 1 dataset."])
  else
    match cellRegistry (aggData env args) with
    | Except.error e => Except.error e
    | Except.ok data =>
      match cellNums data with
      | Except.error e => Except.error e
      | Except.ok nums =>
        match pickTraining rng args.num_train (unique nums).length with
        | Except.error e => Except.error e
        | Except.ok training_cells =>
          Except.ok (0,
            [Event.trained (mkTrainCall args (data.filter (inTrainingCells training_cells))),
             Event.saved (outPath env.isDir args.output)])

/-- The filter that the specification words describe for the training step:
resolve every selected index into the cell value it indexes in the sorted
cell identifier set, and keep an entry when its cell_num equals one of those
resolved values.  This definition follows the words of the spec (sections
4.2 and 4.3 step 6) and exists to be compared with the filter the code
actually applies. -/
def specResolvedFilter (cell_ids : List Int) (idxs : List Nat)
    (data : List Entry) : List Entry :=
  data.filter fun e =>
    match e.cell_num with
    | some v => idxs.any fun i => cell_ids.getD i 0 == v
    | none => false

section Lemmas

/-- Characterization of the successful run: once the dataset list is
non-empty and registry, identifier collection and selection succeed, the
run returns exit code 0 with exactly one trainer call on the filtered
entries followed by one artifact write. -/
lemma main_eq_of_ok (env : Env) (args : Args) (data : List Entry)
    (nums : List Int) (tc : List Nat)
    (hds : args.dataset ≠ [])
    (hreg : cellRegistry (aggData env args) = Except.ok data)
    (hnums : cellNums data = Except.ok nums)
    (hsel : pickTraining (rngOf env args) args.num_train (unique nums).length =
      Except.ok tc) :
    main env args = Except.ok (0,
      [Event.trained (mkTrainCall args (data.filter (inTrainingCells tc))),
       Event.saved (outPath env.isDir args.output)]) := by
  unfold main
  simp [hds, hreg, hnums, hsel]

/-- The membership test of line 91 holds exactly when the cell number of
the entry equals one of the selected raw indices, read as integers. -/
lemma inTrainingCells_iff (tc : List Nat) (e : Entry) :
    inTrainingCells tc e = decide (∃ i ∈ tc, e.cell_num = some (i : Int)) := by
  cases h : e.cell_num with
  | none => simp [inTrainingCells, h]
  | some v =>
    simp only [inTrainingCells, h]
    rcases hx : tc.any fun i => (i : Int) == v with _ | _
    · simp only [List.any_eq_false, beq_iff_eq] at hx
      symm
      simp only [decide_eq_false_iff_not, not_exists]
      rintro i ⟨hi, hv⟩
      injection hv with hv2
      exact hx i hi hv2.symm
    · simp only [List.any_eq_true, beq_iff_eq] at hx
      obtain ⟨i, hi, hiv⟩ := hx
      symm
      simp only [decide_eq_true_eq]
      exact ⟨i, hi, by rw [hiv]⟩

/-- The distinct sorted cell identifiers are strictly ascending. -/
lemma unique_sorted_lt (l : List Int) : List.Sorted (· < ·) (unique l) := by
  have hle : (unique l).Pairwise (· ≤ ·) :=
    List.Pairwise.sublist (List.dedup_sublist _) (List.sorted_insertionSort _ l)
  have hne : (unique l).Pairwise (· ≠ ·) := List.nodup_dedup _
  exact (hle.and hne).imp fun h => lt_of_le_of_ne h.1 h.2

/-- The distinct sorted cell identifiers hold no duplicates. -/
lemma unique_nodup (l : List Int) : (unique l).Nodup :=
  List.nodup_dedup _

/-- The distinct sorted cell identifiers are exactly the values of the
input list. -/
lemma unique_mem (l : List Int) (v : Int) : v ∈ unique l ↔ v ∈ l := by
  rw [unique, List.mem_dedup]
  exact (List.perm_insertionSort _ l).mem_iff

/-- Membership in the collected cell numbers is membership of some entry
cell number. -/
lemma cellNums_mem : ∀ (data : List Entry) (nums : List Int),
    cellNums data = Except.ok nums →
    ∀ v : Int, v ∈ nums ↔ ∃ e ∈ data, e.cell_num = some v
  | [], nums, h, v => by
    simp only [cellNums, Except.ok.injEq] at h
    subst h
    simp
  | e :: rest, nums, h, v => by
    cases hc : e.cell_num with
    | none => simp [cellNums, hc] at h
    | some w =>
      cases hr : cellNums rest with
      | error err => simp [cellNums, hc, hr] at h
      | ok vs =>
        simp only [cellNums, hc, hr, Except.ok.injEq] at h
        subst h
        have ih := cellNums_mem rest vs hr v
        simp only [List.mem_cons, ih, hc]
        constructor
        · rintro (rfl | ⟨e2, he2, hv2⟩)
          · exact ⟨e, Or.inl rfl, hc⟩
          · exact ⟨e2, Or.inr he2, hv2⟩
        · rintro ⟨e2, (rfl | he2), hv2⟩
          · rw [hc] at hv2
            injection hv2 with hv2
            exact Or.inl hv2.symm
          · exact Or.inr ⟨e2, he2, hv2⟩

/-- The index-assignment pass writes position k into entry k. -/
lemma assignCellNums_get (l : List Entry) (k : Nat)
    (hk : k < (assignCellNums l).length) :
    ((assignCellNums l).get ⟨k, hk⟩).cell_num = some (k : Int) := by
  have hk2 : k < l.enum.length := by
    simpa [assignCellNums] using hk
  simp [assignCellNums, List.get_eq_getElem, List.getElem_enum]

end Lemmas

section Fixtures

/-- Environment whose single dataset holds one entry pre-labeled with cell
number 5, so the sorted cell identifier set is the one-element list [5] and
the only valid selection index is 0. -/
def envIdx : Env :=
  { ambientRng := 7
    seedFn := fun s => s.toNat
    load_data := fun p => if p = "a" then [⟨some 5, 0⟩] else []
    preprocessFn := fun l _ => l
    isDir := fun _ => false }

/-- Same environment with the single entry pre-labeled 0, the contiguous
case where indices and cell values coincide. -/
def envZero : Env :=
  { envIdx with load_data := fun p => if p = "a" then [⟨some 0, 0⟩] else [] }

/-- Environment whose loaders return no entries at all. -/
def envEmpty : Env :=
  { envIdx with load_data := fun _ => [] }

/-- Environment whose directory probe reports every path as a directory. -/
def envDir : Env :=
  { envIdx with isDir := fun _ => true }

/-- Default arguments on dataset a, requesting one training cell, with a
supplied seed. -/
def argsOneTrain : Args :=
  { mkDefaultArgs ["a"] "out" with num_train := 1, seed := 0 }

/-- Default arguments on dataset a (num_train is 0, the all-cells path). -/
def argsAll : Args := mkDefaultArgs ["a"] "out"

/-- Default arguments requesting three training cells, more than the one
distinct cell available. -/
def argsTooMany : Args :=
  { mkDefaultArgs ["a"] "out" with num_train := 3 }

/-- Default arguments with logging verbosity set to 2. -/
def argsVerbose : Args :=
  { mkDefaultArgs ["a"] "out" with verbosity := 2 }

/-- Variants of envIdx that differ only in the ambient generator state. -/
def envAmbient1 : Env := { envIdx with ambientRng := 1 }

/-- Second ambient-state variant, same external collaborators. -/
def envAmbient2 : Env := { envIdx with ambientRng := 2 }

end Fixtures

section Claims

/-- C3: for every ordered non-empty sequence of aggregated entries, if the
first entry already has a cell_num the registry mutates nothing and running
it twice yields identical entries; otherwise it assigns every entry a
cell_num equal to its position index, whatever cell_num later entries
carried — the presence check is made once, on the first entry only. -/
theorem registry_checks_first_entry_only (e : Entry) (rest : List Entry) :
    (e.cell_num.isSome = true →
      cellRegistry (e :: rest) = Except.ok (e :: rest) ∧
      (cellRegistry (e :: rest)).bind cellRegistry = Except.ok (e :: rest)) ∧
    (e.cell_num = none →
      cellRegistry (e :: rest) = Except.ok (assignCellNums (e :: rest)) ∧
      ∀ k (hk : k < (assignCellNums (e :: rest)).length),
        ((assignCellNums (e :: rest)).get ⟨k, hk⟩).cell_num = some (k : Int)) := by
  constructor
  · intro hsome
    have h1 : cellRegistry (e :: rest) = Except.ok (e :: rest) := by
      simp [cellRegistry, hsome]
    exact ⟨h1, by rw [h1]; simpa [Except.bind] using h1⟩
  · intro hnone
    refine ⟨by simp [cellRegistry, hnone], fun k hk => assignCellNums_get _ k hk⟩

/-- Witness for C3 at concrete inputs: a pre-labeled first entry is left
alone even when a later entry is unlabeled, and an unlabeled first entry
triggers whole-collection renumbering even when a later entry is
pre-labeled. -/
theorem registry_checks_first_entry_only_witness :
    cellRegistry [⟨some 5, 0⟩, ⟨none, 1⟩] =
      Except.ok [⟨some 5, 0⟩, ⟨none, 1⟩] ∧
    cellRegistry [⟨none, 1⟩, ⟨some 9, 2⟩] =
      Except.ok (assignCellNums [⟨none, 1⟩, ⟨some 9, 2⟩]) :=
  ⟨((registry_checks_first_entry_only ⟨some 5, 0⟩ [⟨none, 1⟩]).1 (by decide)).1,
   ((registry_checks_first_entry_only ⟨none, 1⟩ [⟨some 9, 2⟩]).2 rfl).1⟩

/-- C6: a run invoked with an empty list of dataset locators prints the
user-facing message and returns exit code 0 without crashing; its trace
holds no trainer call and no artifact write. -/
theorem empty_dataset_graceful (env : Env) (args : Args)
    (hds : args.dataset = []) :
    main env args =
      Except.ok (0, [Event.printed "You have to specify at least 1 dataset."]) ∧
    ∀ ev ∈ [Event.printed "You have to specify at least 1 dataset."],
      (∀ c, ev ≠ Event.trained c) ∧ (∀ p, ev ≠ Event.saved p) := by
  refine ⟨by simp [main, hds], ?_⟩
  intro ev hev
  simp only [List.mem_singleton] at hev
  subst hev
  exact ⟨fun c => by simp, fun p => by simp⟩

/-- Witness for C6: the concrete run with no dataset locators. -/
theorem empty_dataset_graceful_witness :
    main envIdx (mkDefaultArgs [] "out") =
      Except.ok (0, [Event.printed "You have to specify at least 1 dataset."]) :=
  (empty_dataset_graceful envIdx (mkDefaultArgs [] "out") rfl).1

/-- C9: the cell identifier set computed after registry normalization is
the sorted list of distinct cell_num values across all entries: strictly
ascending, duplicate-free, and holding exactly the values some entry
carries. -/
theorem cell_ids_sorted_distinct (data out : List Entry) (nums : List Int)
    (_hreg : cellRegistry data = Except.ok out)
    (hnums : cellNums out = Except.ok nums) :
    List.Sorted (· < ·) (unique nums) ∧ (unique nums).Nodup ∧
    ∀ v : Int, v ∈ unique nums ↔ ∃ e ∈ out, e.cell_num = some v := by
  refine ⟨unique_sorted_lt nums, unique_nodup nums, fun v => ?_⟩
  rw [unique_mem]
  exact cellNums_mem out nums hnums v

/-- Witness for C9: one unlabeled entry is renumbered to cell 0 and the
identifier set is the one-element sorted list [0]. -/
theorem cell_ids_sorted_distinct_witness :
    List.Sorted (· < ·) (unique [0]) ∧ (unique [0]).Nodup ∧
    ((0 : Int) ∈ unique [0] ↔
      ∃ e ∈ [(⟨some 0, 0⟩ : Entry)], e.cell_num = some 0) :=
  ⟨(cell_ids_sorted_distinct [⟨none, 0⟩] [⟨some 0, 0⟩] [0] rfl rfl).1,
   (cell_ids_sorted_distinct [⟨none, 0⟩] [⟨some 0, 0⟩] [0] rfl rfl).2.1,
   (cell_ids_sorted_distinct [⟨none, 0⟩] [⟨some 0, 0⟩] [0] rfl rfl).2.2 0⟩

/-- C10: a run whose non-empty locator list loads (and, if enabled,
preprocesses) to zero entries fails with the out-of-range access of the
first-entry read in the cell registry, before any trainer call or
artifact write. -/
theorem empty_aggregate_crashes (env : Env) (args : Args)
    (hds : args.dataset ≠ []) (hagg : aggData env args = []) :
    main env args = Except.error RunError.indexOutOfRange := by
  unfold main
  simp [hds, hagg, cellRegistry]

/-- Witness for C10: one locator whose loader returns no entries. -/
theorem empty_aggregate_crashes_witness :
    main envEmpty (mkDefaultArgs ["a"] "out") =
      Except.error RunError.indexOutOfRange :=
  empty_aggregate_crashes envEmpty (mkDefaultArgs ["a"] "out")
    (by decide) rfl

/-- C1 (amended): for every run with requested training count above zero
that reaches training, the entries passed to the trainer are exactly the
aggregated entries whose cell_num equals one of the selected raw indices
read as integer values; the indices are never resolved into the cell
values they index in the sorted cell identifier set. -/
theorem training_filter_uses_raw_indices (env : Env) (args : Args)
    (data : List Entry) (nums : List Int) (tc : List Nat)
    (hds : args.dataset ≠ [])
    (hreg : cellRegistry (aggData env args) = Except.ok data)
    (hnums : cellNums data = Except.ok nums)
    (htr : args.num_train > 0)
    (hsel : random_select (rngOf env args) args.num_train.toNat
      (unique nums).length = Except.ok tc) :
    main env args = Except.ok (0,
      [Event.trained (mkTrainCall args (data.filter (inTrainingCells tc))),
       Event.saved (outPath env.isDir args.output)]) ∧
    ∀ e : Entry,
      inTrainingCells tc e = true ↔ ∃ i ∈ tc, e.cell_num = some (i : Int) := by
  have hpick : pickTraining (rngOf env args) args.num_train
      (unique nums).length = Except.ok tc := by
    unfold pickTraining
    rw [if_pos htr, hsel]
  refine ⟨main_eq_of_ok env args data nums tc hds hreg hnums hpick, fun e => ?_⟩
  rw [inTrainingCells_iff]
  exact decide_eq_true_iff

/-- Witness for the amended C1 in the contiguous case: the single entry is
labeled 0, index 0 is selected, and the membership test keeps it. -/
theorem training_filter_uses_raw_indices_witness :
    main envZero argsOneTrain = Except.ok (0,
      [Event.trained (mkTrainCall argsOneTrain
        (([⟨some 0, 0⟩] : List Entry).filter (inTrainingCells [0]))),
       Event.saved (outPath envZero.isDir argsOneTrain.output)]) ∧
    (inTrainingCells [0] ⟨some 0, 0⟩ = true ↔
      ∃ i ∈ ([0] : List Nat), (⟨some 0, 0⟩ : Entry).cell_num = some (i : Int)) :=
  ⟨(training_filter_uses_raw_indices envZero argsOneTrain [⟨some 0, 0⟩] [0] [0]
      (by decide) rfl rfl (by decide) rfl).1,
   (training_filter_uses_raw_indices envZero argsOneTrain [⟨some 0, 0⟩] [0] [0]
      (by decide) rfl rfl (by decide) rfl).2 ⟨some 0, 0⟩⟩

/-- C1 counterexample: with one entry pre-labeled cell 5 the identifier
set is [5] and any one-element selection from a one-element index range is
the index 0.  The filter described by the spec resolves index 0 to cell
value 5 and keeps the entry, but the run hands the trainer the empty entry
list because the code compares cell_num 5 against the raw index 0. -/
theorem training_filter_counterexample :
    random_select (rngOf envIdx argsOneTrain) 1 (unique [5]).length =
      Except.ok [0] ∧
    specResolvedFilter (unique [5]) [0] [⟨some 5, 0⟩] = [⟨some 5, 0⟩] ∧
    main envIdx argsOneTrain = Except.ok (0,
      [Event.trained (mkTrainCall argsOneTrain []), Event.saved "out"]) ∧
    mkTrainCall argsOneTrain [] ≠ mkTrainCall argsOneTrain [⟨some 5, 0⟩] :=
  ⟨rfl, rfl, rfl, by decide⟩

/-- C2 (amended): with requested training count 0 or negative the training
subset is the full index range of the cell identifier set, and the filter
keeps exactly the entries whose cell_num is one of the indices 0..N-1 — in
particular all entries whenever every cell_num lies in that range (as after
registry assignment). -/
theorem all_cells_index_range (env : Env) (args : Args)
    (data : List Entry) (nums : List Int)
    (hds : args.dataset ≠ [])
    (hreg : cellRegistry (aggData env args) = Except.ok data)
    (hnums : cellNums data = Except.ok nums)
    (htr : args.num_train ≤ 0) :
    main env args = Except.ok (0,
      [Event.trained (mkTrainCall args
        (data.filter (inTrainingCells (List.range (unique nums).length)))),
       Event.saved (outPath env.isDir args.output)]) ∧
    ((∀ e ∈ data, ∃ i : Nat,
        i < (unique nums).length ∧ e.cell_num = some (i : Int)) →
      data.filter (inTrainingCells (List.range (unique nums).length)) = data) := by
  constructor
  · refine main_eq_of_ok env args data nums _ hds hreg hnums ?_
    unfold pickTraining
    rw [if_neg (by omega)]
  · intro hall
    apply List.filter_eq_self.mpr
    intro e he
    obtain ⟨i, hiN, hcell⟩ := hall e he
    rw [inTrainingCells_iff]
    simp only [decide_eq_true_eq]
    exact ⟨i, List.mem_range.mpr hiN, hcell⟩

/-- Witness for the amended C2 in the contiguous case: the single entry is
labeled 0 and the full index range keeps it. -/
theorem all_cells_index_range_witness :
    main envZero argsAll = Except.ok (0,
      [Event.trained (mkTrainCall argsAll
        (([⟨some 0, 0⟩] : List Entry).filter
          (inTrainingCells (List.range (unique [0]).length)))),
       Event.saved (outPath envZero.isDir argsAll.output)]) ∧
    ([⟨some 0, 0⟩] : List Entry).filter
      (inTrainingCells (List.range (unique [0]).length)) = [⟨some 0, 0⟩] :=
  ⟨(all_cells_index_range envZero argsAll [⟨some 0, 0⟩] [0]
      (by decide) rfl rfl (by decide)).1,
   (all_cells_index_range envZero argsAll [⟨some 0, 0⟩] [0]
      (by decide) rfl rfl (by decide)).2
     (by
       intro e he
       simp only [List.mem_singleton] at he
       subst he
       exact ⟨0, by decide, rfl⟩)⟩

/-- C2 counterexample: with one entry pre-labeled cell 5 and training count
0, the subset is the index range [0] but the entry with cell_num 5 does not
participate — the trainer receives the empty list, not all entries. -/
theorem all_cells_counterexample :
    aggData envIdx argsAll = [⟨some 5, 0⟩] ∧
    cellRegistry (aggData envIdx argsAll) = Except.ok [⟨some 5, 0⟩] ∧
    main envIdx argsAll = Except.ok (0,
      [Event.trained (mkTrainCall argsAll []), Event.saved "out"]) ∧
    mkTrainCall argsAll [] ≠ mkTrainCall argsAll [⟨some 5, 0⟩] :=
  ⟨rfl, rfl, rfl, by decide⟩

/-- C4: two runs on the same inputs through the same collaborators with the
same supplied seed above the sentinel -1 coincide entirely — in particular
they produce identical training subsets — whatever ambient generator state
each process started with, because the seed is applied before any
sampling. -/
theorem seeded_runs_identical (env env2 : Env) (args : Args)
    (hseed : args.seed > -1)
    (hs : env.seedFn = env2.seedFn)
    (hl : env.load_data = env2.load_data)
    (hp : env.preprocessFn = env2.preprocessFn)
    (hd : env.isDir = env2.isDir) :
    main env args = main env2 args := by
  obtain ⟨a1, sf1, ld1, pp1, dir1⟩ := env
  obtain ⟨a2, sf2, ld2, pp2, dir2⟩ := env2
  simp only at hs hl hp hd
  subst hs
  subst hl
  subst hp
  subst hd
  simp [main, rngOf, aggData, outPath, hseed]

/-- Witness for C4: two environments differing only in ambient generator
state, run with seed 0. -/
theorem seeded_runs_identical_witness :
    main envAmbient1 argsOneTrain = main envAmbient2 argsOneTrain :=
  seeded_runs_identical envAmbient1 envAmbient2 argsOneTrain
    (by decide) rfl rfl rfl rfl

/-- C5: when the requested training count exceeds the number of distinct
cells, the selection primitive fails with the invalid-argument kind,
produces no partial selection and no clamped selection, and the whole run
fails with that error. -/
theorem num_train_above_cell_count_fails (env : Env) (args : Args)
    (data : List Entry) (nums : List Int)
    (hds : args.dataset ≠ [])
    (hreg : cellRegistry (aggData env args) = Except.ok data)
    (hnums : cellNums data = Except.ok nums)
    (htr : args.num_train > 0)
    (hbig : (unique nums).length < args.num_train.toNat) :
    random_select (rngOf env args) args.num_train.toNat (unique nums).length =
      Except.error RunError.invalidArgument ∧
    main env args = Except.error RunError.invalidArgument := by
  have hrs : random_select (rngOf env args) args.num_train.toNat
      (unique nums).length = Except.error RunError.invalidArgument := by
    unfold random_select
    rw [if_pos hbig]
  refine ⟨hrs, ?_⟩
  have hpick : pickTraining (rngOf env args) args.num_train
      (unique nums).length = Except.error RunError.invalidArgument := by
    unfold pickTraining
    rw [if_pos htr, hrs]
  unfold main
  simp [hds, hreg, hnums, hpick]

/-- Witness for C5: three training cells requested from a single-cell
collection. -/
theorem num_train_above_cell_count_fails_witness :
    random_select (rngOf envIdx argsTooMany) argsTooMany.num_train.toNat
      (unique [5]).length = Except.error RunError.invalidArgument ∧
    main envIdx argsTooMany = Except.error RunError.invalidArgument :=
  num_train_above_cell_count_fails envIdx argsTooMany [⟨some 5, 0⟩] [5]
    (by decide) rfl rfl (by decide) (by decide)

/-- C7 (amended): every run that reaches training passes the supplied
hyperparameters to the trainer unchanged — validation count, ensemble
size, variance-explained threshold, window length, retention flag,
fine-tune flag, per-model structural parameters, regularization strength
and logging verbosity — except the training verbosity inside
training_parameters, which is the hardcoded constant 1 whatever verbosity
was supplied. -/
theorem hyperparameters_forwarded (env : Env) (args : Args)
    (data : List Entry) (nums : List Int) (tc : List Nat)
    (hds : args.dataset ≠ [])
    (hreg : cellRegistry (aggData env args) = Except.ok data)
    (hnums : cellNums data = Except.ok nums)
    (hsel : pickTraining (rngOf env args) args.num_train
      (unique nums).length = Except.ok tc) :
    main env args = Except.ok (0,
      [Event.trained
        { entries := data.filter (inTrainingCells tc)
          num_valid := args.num_valid
          num_models := args.num_models
          var_explained := args.var_explained
          window_length := args.window_length
          keep_all := args.keep_all
          finetune := args.finetune
          model_parameters :=
            { num_components := args.num_components
              num_features := args.num_features }
          training_parameters := { verbosity := 1 }
          regularize := args.regularize
          verbosity := args.verbosity },
       Event.saved (outPath env.isDir args.output)]) :=
  main_eq_of_ok env args data nums tc hds hreg hnums hsel

/-- Witness for the amended C7: the run with verbosity 2 reaches the
trainer with its supplied hyperparameters and training verbosity 1. -/
theorem hyperparameters_forwarded_witness :
    main envZero argsVerbose = Except.ok (0,
      [Event.trained
        { entries := ([⟨some 0, 0⟩] : List Entry).filter
            (inTrainingCells (List.range 1))
          num_valid := 0
          num_models := 4
          var_explained := 95
          window_length := 1000
          keep_all := 1
          finetune := 0
          model_parameters := { num_components := 3, num_features := 2 }
          training_parameters := { verbosity := 1 }
          regularize := 0
          verbosity := 2 },
       Event.saved (outPath envZero.isDir argsVerbose.output)]) :=
  hyperparameters_forwarded envZero argsVerbose [⟨some 0, 0⟩] [0]
    (List.range 1) (by decide) rfl rfl rfl

/-- C7 counterexample: the supplied verbosity is 2, yet the trainer call
carries training_parameters verbosity 1 — the training verbosity does not
equal the value supplied at orchestration start. -/
theorem hyperparameters_counterexample :
    main envIdx argsVerbose = Except.ok (0,
      [Event.trained (mkTrainCall argsVerbose []), Event.saved "out"]) ∧
    (mkTrainCall argsVerbose []).training_parameters.verbosity = 1 ∧
    argsVerbose.verbosity = 2 ∧
    (mkTrainCall argsVerbose []).training_parameters.verbosity ≠
      argsVerbose.verbosity :=
  ⟨rfl, rfl, rfl, by decide⟩

/-- C8: every run that reaches the store writes the experiment record at
the target joined with the fixed default filename model.xpck when the
target names an existing directory, and at exactly the target path
otherwise; the write is unconditional — no existence check and no prompt
guards it. -/
theorem output_path_resolution (env : Env) (args : Args)
    (data : List Entry) (nums : List Int) (tc : List Nat)
    (hds : args.dataset ≠ [])
    (hreg : cellRegistry (aggData env args) = Except.ok data)
    (hnums : cellNums data = Except.ok nums)
    (hsel : pickTraining (rngOf env args) args.num_train
      (unique nums).length = Except.ok tc) :
    (env.isDir args.output = true →
      main env args = Except.ok (0,
        [Event.trained (mkTrainCall args (data.filter (inTrainingCells tc))),
         Event.saved (osPathJoin args.output "model.xpck")])) ∧
    (env.isDir args.output = false →
      main env args = Except.ok (0,
        [Event.trained (mkTrainCall args (data.filter (inTrainingCells tc))),
         Event.saved args.output])) := by
  have h := main_eq_of_ok env args data nums tc hds hreg hnums hsel
  constructor
  · intro hdir
    rw [h]
    simp [outPath, hdir]
  · intro hdir
    rw [h]
    simp [outPath, hdir]

/-- Witness for C8: the same arguments against a directory-reporting probe
and against a file-reporting probe. -/
theorem output_path_resolution_witness :
    main envDir argsAll = Except.ok (0,
      [Event.trained (mkTrainCall argsAll
        (([⟨some 5, 0⟩] : List Entry).filter (inTrainingCells (List.range 1)))),
       Event.saved (osPathJoin "out" "model.xpck")]) ∧
    main envIdx argsAll = Except.ok (0,
      [Event.trained (mkTrainCall argsAll
        (([⟨some 5, 0⟩] : List Entry).filter (inTrainingCells (List.range 1)))),
       Event.saved "out"]) :=
  ⟨(output_path_resolution envDir argsAll [⟨some 5, 0⟩] [5] (List.range 1)
      (by decide) rfl rfl rfl).1 rfl,
   (output_path_resolution envIdx argsAll [⟨some 5, 0⟩] [5] (List.range 1)
      (by decide) rfl rfl rfl).2 rfl⟩

end Claims

end C2S
